import Mathlib

/-!
Formal model of the imagelite client-side image pipeline
(`src/services/imageUtils.ts` and its earlier revisions kept in the
repository).  The browser encoder (canvas `toBlob` / `toDataURL`) is
modelled as an opaque capability-driven oracle: it produces the requested
MIME type when the platform supports it and otherwise silently falls back
to `image/png`, with an arbitrary (but deterministic) byte size.  All
resize arithmetic (`Math.round`) is modelled exactly over `Nat`.

The repository keeps several revisions of the module side by side; they
are embedded in separate namespaces:
 * `B`  — the revision of `src/services/imageUtils.ts` labelled
          "Version 2.1" (lines 203–334 of the concatenated file);
 * `VC` — the final revision of `src/services/imageUtils.ts`
          (lines 465–594);
 * `P0` — the revision in `src/unnamed/part_000`.
-/

/-- MIME types that appear in the pipeline. -/
inductive Mime where
  | jpeg
  | png
  | webp
  | avif
  | gif
  | svg
deriving DecidableEq, Repr

/-- A source file as the pipeline sees it: declared MIME type, byte
length, and pixel dimensions (`getImageDimensions`). -/
structure FileModel where
  type : Mime
  size : Nat
  width : Nat
  height : Nat
deriving DecidableEq, Repr

/-- The options record passed to `compressImage` (`CompressOptions`).
`quality` is the JS quality in hundredths (0.65 ↦ 65); it is only ever
passed through to the platform encoder, never computed with, so this
rescaling is exact.  `maxWidth = 0` models an absent `maxWidth`. -/
structure EncodeRequest where
  quality : Nat
  type : Mime
  maxWidth : Nat
deriving DecidableEq, Repr

/-- An encoded blob: resolved MIME type, byte size, pixel dimensions. -/
structure Blob where
  type : Mime
  size : Nat
  width : Nat
  height : Nat
deriving DecidableEq, Repr

/-- Result of the smart optimizer: either the original file returned
verbatim (`return file`) or an encoded blob (`return blob`). -/
inductive Outcome where
  | original
  | encoded (b : Blob)
deriving DecidableEq, Repr

/-- Byte length of an outcome relative to the source file. -/
def outcomeSize (f : FileModel) : Outcome → Nat
  | Outcome.original => f.size
  | Outcome.encoded b => b.size

/-- MIME type of an outcome relative to the source file. -/
def outcomeType (f : FileModel) : Outcome → Mime
  | Outcome.original => f.type
  | Outcome.encoded b => b.type

/-- Re-package an outcome as a file (used to feed one optimizer run's
output into a second run). -/
def outcomeFile (f : FileModel) : Outcome → FileModel
  | Outcome.original => f
  | Outcome.encoded b => ⟨b.type, b.size, b.width, b.height⟩

/-- The platform encoder behind canvas `toBlob`/`toDataURL`.  Per the
HTML canvas contract (relied on by the source's PNG-fallback checks): a
requested type is honoured iff the platform supports it, otherwise the
encoder silently substitutes `image/png`; `image/png` itself is always
supported.  The byte size of the produced blob is an opaque
deterministic function of the input and the request. -/
structure CanvasEncoder where
  cap : Mime → Bool
  cap_png : cap Mime.png = true
  bytes : FileModel → EncodeRequest → Nat

/-- The MIME type the platform actually produces for a requested type. -/
def resolvedType (E : CanvasEncoder) (t : Mime) : Mime :=
  if E.cap t then t else Mime.png

/-- JavaScript `Math.round (num / den)` over naturals (`den > 0`):
round-half-up of the exact quotient. -/
def jsRound (num den : Nat) : Nat :=
  (2 * num + den) / (2 * den)

/-- The SMART RESIZING LOGIC of `compressImage`: cap the longer side at
`maxW` (0 = no cap), scaling the shorter side proportionally with
`Math.round`.  Identical in every revision of the module. -/
def resizeDims (w h maxW : Nat) : Nat × Nat :=
  if 0 < maxW ∧ (maxW < w ∨ maxW < h) then
    if h < w then (maxW, jsRound (h * maxW) w)
    else (jsRound (w * maxW) h, maxW)
  else (w, h)

/-- Model of `compressImage`: decode, resize, draw, encode at the
requested type/quality.  The resolved type follows the canvas fallback
contract; the byte size is the encoder oracle's answer. -/
def compressImage (E : CanvasEncoder) (f : FileModel) (o : EncodeRequest) : Blob :=
  { type := resolvedType E o.type
    size := E.bytes f o
    width := (resizeDims f.width f.height o.maxWidth).1
    height := (resizeDims f.width f.height o.maxWidth).2 }

theorem resolvedType_cap (E : CanvasEncoder) (t : Mime) :
    E.cap (resolvedType E t) = true := by
  unfold resolvedType
  by_cases h : E.cap t
  · simp [h]
  · simp [h, E.cap_png]

theorem resolvedType_of_cap (E : CanvasEncoder) {t : Mime} (h : E.cap t = true) :
    resolvedType E t = t := by
  simp [resolvedType, h]

namespace B

/-! Revision "Version 2.1" of `src/services/imageUtils.ts`
(`SMART OPTIMIZER (MOBILE-FIRST STRATEGY - TARGET < 100KB)`). -/

/-- DETECT MOBILE PHOTO: High Res (>2000px) + Low Size (<3.0MB);
`sizeInMB < 3.0` is exactly `size < 3 * 1048576` bytes. -/
def isMobilePhoto (f : FileModel) : Prop :=
  2000 < max f.width f.height ∧ f.size < 3145728

instance (f : FileModel) : Decidable (isMobilePhoto f) := by
  unfold isMobilePhoto; infer_instance

/-- Pass-1 `startWidth`: 1920, or 1280 for a detected mobile photo. -/
def startWidth (f : FileModel) : Nat :=
  if isMobilePhoto f then 1280 else 1920

/-- Pass-1 `startQuality` (in hundredths): AVIF 0.5 / others 0.65;
mobile photo: AVIF 0.4 / others 0.6. -/
def startQuality (t : Mime) (f : FileModel) : Nat :=
  if isMobilePhoto f then (if t = Mime.avif then 40 else 60)
  else (if t = Mime.avif then 50 else 65)

/-- The Pass-1 encode request. -/
def pass1Req (t : Mime) (f : FileModel) : EncodeRequest :=
  ⟨startQuality t f, t, startWidth f⟩

/-- The Pass-1 result before the PNG-fallback trap. -/
def pass1Blob (E : CanvasEncoder) (t : Mime) (f : FileModel) : Blob :=
  compressImage E f (pass1Req t f)

/-- TRAP PNG FALLBACK: fires when WebP/AVIF was requested but the
platform produced PNG. -/
def trapFires (t : Mime) (b : Blob) : Prop :=
  (t = Mime.webp ∨ t = Mime.avif) ∧ b.type = Mime.png

instance (t : Mime) (b : Blob) : Decidable (trapFires t b) := by
  unfold trapFires; infer_instance

/-- The fallback request of the trap: JPEG at 0.7, `maxWidth: 1024`
(this revision drops to 1024 regardless of the Pass-1 width). -/
def trapReq : EncodeRequest := ⟨70, Mime.jpeg, 1024⟩

/-- The blob treated as the Pass-1 result from here on. -/
def blobAfterTrap (E : CanvasEncoder) (t : Mime) (f : FileModel) : Blob :=
  if trapFires t (pass1Blob E t f) then compressImage E f trapReq
  else pass1Blob E t f

/-- Pass-2 entry condition of this revision:
`blob.size > 150 * 1024 || (isMobilePhoto && blob.size > file.size)`. -/
def pass2Cond (f : FileModel) (b : Blob) : Prop :=
  153600 < b.size ∨ (isMobilePhoto f ∧ f.size < b.size)

instance (f : FileModel) (b : Blob) : Decidable (pass2Cond f b) := by
  unfold pass2Cond; infer_instance

/-- The Pass-2 request: 960px, quality 0.3 for AVIF / 0.5 otherwise,
re-encoding at the resolved type of the current blob (`retryType`). -/
def pass2Req (b : Blob) : EncodeRequest :=
  ⟨if b.type = Mime.avif then 30 else 50, b.type, 960⟩

/-- Best result after the Pass-2 block (`if (retryBlob.size < blob.size)
blob = retryBlob`). -/
def bestAfterPass2 (E : CanvasEncoder) (t : Mime) (f : FileModel) : Blob :=
  if (compressImage E f (pass2Req (blobAfterTrap E t f))).size
      < (blobAfterTrap E t f).size then
    compressImage E f (pass2Req (blobAfterTrap E t f))
  else blobAfterTrap E t f

/-- The Pass-3 request: 800px; the quality looks at the current best
blob's type, the requested type is the `retryType` captured before
Pass 2 ran. -/
def pass3Req (retryType : Mime) (b : Blob) : EncodeRequest :=
  ⟨if b.type = Mime.avif then 25 else 45, retryType, 800⟩

/-- Best result after the Pass-3 block. -/
def bestAfterPass3 (E : CanvasEncoder) (t : Mime) (f : FileModel) : Blob :=
  if (compressImage E f
        (pass3Req (blobAfterTrap E t f).type (bestAfterPass2 E t f))).size
      < (bestAfterPass2 E t f).size then
    compressImage E f (pass3Req (blobAfterTrap E t f).type (bestAfterPass2 E t f))
  else bestAfterPass2 E t f

/-- The blob reaching the FINAL DECISION LOGIC, following the escalation
control flow (Pass 3 runs only when the best result is still over
100KB). -/
def finalBlob (E : CanvasEncoder) (t : Mime) (f : FileModel) : Blob :=
  if pass2Cond f (blobAfterTrap E t f) then
    if 102400 < (bestAfterPass2 E t f).size then bestAfterPass3 E t f
    else bestAfterPass2 E t f
  else blobAfterTrap E t f

/-- FINAL DECISION LOGIC: same resolved format and no saving — return
the original file; otherwise return the blob. -/
def smartOptimizedCompress (E : CanvasEncoder) (t : Mime) (f : FileModel) : Outcome :=
  if f.type = (finalBlob E t f).type ∧ f.size ≤ (finalBlob E t f).size then
    Outcome.original
  else Outcome.encoded (finalBlob E t f)

/-- `compressSimple`: the Compress adapter, `targetFormat = file.type`. -/
def compressSimple (E : CanvasEncoder) (f : FileModel) : Outcome :=
  smartOptimizedCompress E f.type f

end B

namespace VC

/-! Final revision of `src/services/imageUtils.ts`
(`SMART OPTIMIZER (MOBILE-FIRST STRATEGY)`). -/

/-- DETECT MOBILE PHOTO: High Res (>2000px) + Low Size (<2.5MB);
`sizeInMB < 2.5` is exactly `size < 2621440` bytes. -/
def isMobilePhoto (f : FileModel) : Prop :=
  2000 < max f.width f.height ∧ f.size < 2621440

instance (f : FileModel) : Decidable (isMobilePhoto f) := by
  unfold isMobilePhoto; infer_instance

/-- Pass-1 `startWidth`: 1920, or 1280 for a detected mobile photo. -/
def startWidth (f : FileModel) : Nat :=
  if isMobilePhoto f then 1280 else 1920

/-- Pass-1 `startQuality` (in hundredths): AVIF 0.5 / others 0.65;
mobile photo: AVIF 0.35 / others 0.5. -/
def startQuality (t : Mime) (f : FileModel) : Nat :=
  if isMobilePhoto f then (if t = Mime.avif then 35 else 50)
  else (if t = Mime.avif then 50 else 65)

/-- The Pass-1 encode request. -/
def pass1Req (t : Mime) (f : FileModel) : EncodeRequest :=
  ⟨startQuality t f, t, startWidth f⟩

/-- The Pass-1 result before the PNG-fallback check. -/
def pass1Blob (E : CanvasEncoder) (t : Mime) (f : FileModel) : Blob :=
  compressImage E f (pass1Req t f)

/-- The PNG-fallback check: WebP/AVIF requested but PNG produced. -/
def trapFires (t : Mime) (b : Blob) : Prop :=
  (t = Mime.webp ∨ t = Mime.avif) ∧ b.type = Mime.png

instance (t : Mime) (b : Blob) : Decidable (trapFires t b) := by
  unfold trapFires; infer_instance

/-- The fallback request of this revision: JPEG at 0.7 with
`maxWidth: startWidth` — the same max dimension Pass 1 used. -/
def trapReq (f : FileModel) : EncodeRequest :=
  ⟨70, Mime.jpeg, startWidth f⟩

/-- The blob treated as the Pass-1 result from here on. -/
def blobAfterTrap (E : CanvasEncoder) (t : Mime) (f : FileModel) : Blob :=
  if trapFires t (pass1Blob E t f) then compressImage E f (trapReq f)
  else pass1Blob E t f

/-- The Pass-2 request: 1024px, quality 0.25 for AVIF / 0.4 otherwise,
re-encoding at the resolved type of the current blob (`retryType`). -/
def pass2Req (b : Blob) : EncodeRequest :=
  ⟨if b.type = Mime.avif then 25 else 40, b.type, 1024⟩

/-- Best result after the Pass-2 block. -/
def bestAfterPass2 (E : CanvasEncoder) (t : Mime) (f : FileModel) : Blob :=
  if (compressImage E f (pass2Req (blobAfterTrap E t f))).size
      < (blobAfterTrap E t f).size then
    compressImage E f (pass2Req (blobAfterTrap E t f))
  else blobAfterTrap E t f

/-- Pass-3 entry: `blob.size >= file.size * 0.9` (best result still
bigger than, or barely below, the source), modelled exactly as
`9 * file.size ≤ 10 * blob.size`. -/
def pass3Cond (f : FileModel) (b : Blob) : Prop :=
  9 * f.size ≤ 10 * b.size

instance (f : FileModel) (b : Blob) : Decidable (pass3Cond f b) := by
  unfold pass3Cond; infer_instance

/-- The Pass-3 request: quality 0.3, `retryType`, 800px. -/
def pass3Req (retryType : Mime) : EncodeRequest :=
  ⟨30, retryType, 800⟩

/-- Best result after the Pass-3 block. -/
def bestAfterPass3 (E : CanvasEncoder) (t : Mime) (f : FileModel) : Blob :=
  if (compressImage E f (pass3Req (blobAfterTrap E t f).type)).size
      < (bestAfterPass2 E t f).size then
    compressImage E f (pass3Req (blobAfterTrap E t f).type)
  else bestAfterPass2 E t f

/-- The blob reaching the final decision, following the escalation
control flow: Pass 2 runs iff the Pass-1 result did not beat the
source (`blob.size >= file.size`); Pass 3 iff the best is still at or
above 90% of the source. -/
def finalBlob (E : CanvasEncoder) (t : Mime) (f : FileModel) : Blob :=
  if f.size ≤ (blobAfterTrap E t f).size then
    if pass3Cond f (bestAfterPass2 E t f) then bestAfterPass3 E t f
    else bestAfterPass2 E t f
  else blobAfterTrap E t f

/-- The sequence of encode requests this revision issues, in order. -/
def requests (E : CanvasEncoder) (t : Mime) (f : FileModel) : List EncodeRequest :=
  pass1Req t f ::
    ((if trapFires t (pass1Blob E t f) then [trapReq f] else []) ++
      (if f.size ≤ (blobAfterTrap E t f).size then
        pass2Req (blobAfterTrap E t f) ::
          (if pass3Cond f (bestAfterPass2 E t f) then
            [pass3Req (blobAfterTrap E t f).type]
          else [])
      else []))

/-- Final Decision: same resolved format and no saving — return the
original file; otherwise return the blob. -/
def smartOptimizedCompress (E : CanvasEncoder) (t : Mime) (f : FileModel) : Outcome :=
  if f.type = (finalBlob E t f).type ∧ f.size ≤ (finalBlob E t f).size then
    Outcome.original
  else Outcome.encoded (finalBlob E t f)

/-- `compressSimple`: the Compress adapter, `targetFormat = file.type`. -/
def compressSimple (E : CanvasEncoder) (f : FileModel) : Outcome :=
  smartOptimizedCompress E f.type f

end VC

namespace P0

/-! The revision in `src/unnamed/part_000`
(`SMART OPTIMIZER (MOBILE-FIRST STRATEGY)` without the PNG trap). -/

/-- DETECT MOBILE PHOTO SYNDROME: huge resolution (> 2500px) but small
file size (< 2.5MB). -/
def isMobilePhoto (f : FileModel) : Prop :=
  2500 < max f.width f.height ∧ f.size < 2621440

instance (f : FileModel) : Decidable (isMobilePhoto f) := by
  unfold isMobilePhoto; infer_instance

/-- Pass-1 `startWidth`: 1920, or 1280 for a detected mobile photo. -/
def startWidth (f : FileModel) : Nat :=
  if isMobilePhoto f then 1280 else 1920

/-- Pass-1 `startQuality` (in hundredths): AVIF 0.45 / others 0.7;
mobile photo: AVIF 0.4 / others 0.6. -/
def startQuality (t : Mime) (f : FileModel) : Nat :=
  if isMobilePhoto f then (if t = Mime.avif then 40 else 60)
  else (if t = Mime.avif then 45 else 70)

/-- The Pass-1 encode request. -/
def pass1Req (t : Mime) (f : FileModel) : EncodeRequest :=
  ⟨startQuality t f, t, startWidth f⟩

/-- The Pass-1 result (this revision has no PNG trap). -/
def pass1Blob (E : CanvasEncoder) (t : Mime) (f : FileModel) : Blob :=
  compressImage E f (pass1Req t f)

/-- The Pass-2 request: 1024px, quality 0.3 for AVIF / 0.5 otherwise,
always at the requested `targetType`. -/
def pass2Req (t : Mime) : EncodeRequest :=
  ⟨if t = Mime.avif then 30 else 50, t, 1024⟩

/-- Best result after the Pass-2 block. -/
def bestAfterPass2 (E : CanvasEncoder) (t : Mime) (f : FileModel) : Blob :=
  if (compressImage E f (pass2Req t)).size < (pass1Blob E t f).size then
    compressImage E f (pass2Req t)
  else pass1Blob E t f

/-- The Pass-3 ("Nuclear Option") request: 800px, quality 0.2 for AVIF /
0.4 otherwise, again at `targetType`. -/
def pass3Req (t : Mime) : EncodeRequest :=
  ⟨if t = Mime.avif then 20 else 40, t, 800⟩

/-- Best result after the Pass-3 block. -/
def bestAfterPass3 (E : CanvasEncoder) (t : Mime) (f : FileModel) : Blob :=
  if (compressImage E f (pass3Req t)).size < (bestAfterPass2 E t f).size then
    compressImage E f (pass3Req t)
  else bestAfterPass2 E t f

/-- The blob reaching the final decision: Pass 2 runs iff
`blob.size >= file.size`, Pass 3 iff the best is still
`>= file.size`. -/
def finalBlob (E : CanvasEncoder) (t : Mime) (f : FileModel) : Blob :=
  if f.size ≤ (pass1Blob E t f).size then
    if f.size ≤ (bestAfterPass2 E t f).size then bestAfterPass3 E t f
    else bestAfterPass2 E t f
  else pass1Blob E t f

/-- FINAL DECISION LOGIC of this revision: Scenario A (same format,
`file.type === targetType`, nothing saved) returns the original file;
Scenario B returns the smallest blob generated. -/
def smartOptimizedCompress (E : CanvasEncoder) (t : Mime) (f : FileModel) : Outcome :=
  if f.type = t ∧ f.size ≤ (finalBlob E t f).size then Outcome.original
  else Outcome.encoded (finalBlob E t f)

/-- `convertToWebP`: Smart Optimizer at `image/webp`. -/
def convertToWebP (E : CanvasEncoder) (f : FileModel) : Outcome :=
  smartOptimizedCompress E Mime.webp f

/-- `convertToAVIF`: Smart Optimizer at `image/avif`; if the returned
value's type is `image/png` (browser cannot write AVIF), retry the whole
call as `convertToWebP`. -/
def convertToAVIF (E : CanvasEncoder) (f : FileModel) : Outcome :=
  if outcomeType f (smartOptimizedCompress E Mime.avif f) = Mime.png then
    convertToWebP E f
  else smartOptimizedCompress E Mime.avif f

/-- `compressSimple`: keep the original format. -/
def compressSimple (E : CanvasEncoder) (f : FileModel) : Outcome :=
  smartOptimizedCompress E f.type f

end P0

/-! `formatBytes` (identical in every revision of the module). -/

/-- The `sizes` array of `formatBytes`. -/
def sizesArr : List String := ["Bytes", "KB", "MB", "GB"]

/-- What JS string interpolation prints for an out-of-range array read. -/
def undefinedStr : String := "undefined"

/-- `i = Math.floor(Math.log(bytes) / Math.log(1024))`: the floor of the
real base-1024 logarithm, which for naturals is `Nat.log 1024`. -/
def formatBytesIndex (bytes : Nat) : Nat := Nat.log 1024 bytes

/-- `sizes[i]` as it ends up in the returned string: the unit name when
`i` is in bounds, the text `undefined` otherwise. -/
def formatBytesUnit (bytes : Nat) : String :=
  (sizesArr.get? (formatBytesIndex bytes)).getD undefinedStr

/-- `parseFloat((bytes / Math.pow(k, i)).toFixed(2))` as an exact
rational: round to two decimals, half up. -/
def toFixed2 (q : ℚ) : ℚ := (Int.floor (q * 100 + 1 / 2) : ℚ) / 100

/-- The numeric part of `formatBytes`. -/
def formatBytesNum (bytes : Nat) : ℚ :=
  toFixed2 ((bytes : ℚ) / 1024 ^ formatBytesIndex bytes)

/-- `formatBytes` with default `decimals = 2`. -/
def formatBytes (bytes : Nat) : String :=
  if bytes = 0 then "0 Bytes"
  else toString (formatBytesNum bytes) ++ " " ++ formatBytesUnit bytes

/-! `generateSVGWrapper` (from the Version 2.1 revision, whose
`smartOptimizedCompress` it calls). -/

/-- Result of `generateSVGWrapper`: SVG sources pass through as text,
anything else gets generated wrapper markup. -/
inductive SVGResult where
  | passthrough
  | generated (markup : String)
deriving DecidableEq, Repr

/-- The generated markup template, with declared width `w`, height `h`
and the Base64 payload `data` interpolated. -/
def svgTemplate (w h : Nat) (data : String) : String :=
  "<!-- Generated by ImageLite Studio -->\n<svg width=\"" ++ toString w ++
    "\" height=\"" ++ toString h ++ "\" viewBox=\"0 0 " ++ toString w ++ " " ++
    toString h ++
    "\" xmlns=\"http://www.w3.org/2000/svg\" xmlns:xlink=\"http://www.w3.org/1999/xlink\">\n  <image width=\"" ++
    toString w ++ "\" height=\"" ++ toString h ++ "\" xlink:href=\"" ++ data ++
    "\" />\n</svg>"

/-- The pixel dimensions of the payload embedded in the wrapper: the
`Image` loaded from the optimizer's output (`img.width`/`img.height`),
i.e. the chosen blob's dimensions, or the source's native dimensions
when the optimizer returned the original file. -/
def embeddedDims (f : FileModel) : Outcome → Nat × Nat
  | Outcome.original => (f.width, f.height)
  | Outcome.encoded b => (b.width, b.height)

/-- `generateSVGWrapper`: pass SVG through; otherwise compress with the
Smart Optimizer at the source's own type and wrap the payload.  `data`
stands for the Base64 text of the compressed payload (opaque binary
content, outside the model). -/
def generateSVGWrapper (E : CanvasEncoder) (f : FileModel) (data : String) : SVGResult :=
  if f.type = Mime.svg then SVGResult.passthrough
  else
    let o := B.smartOptimizedCompress E f.type f
    SVGResult.generated (svgTemplate (embeddedDims f o).1 (embeddedDims f o).2 data)

/-! Concrete encoders and files used by witnesses and counterexamples. -/

/-- An encoder supporting every format, constant byte size `n`. -/
def constEnc (n : Nat) : CanvasEncoder :=
  ⟨fun _ => true, rfl, fun _ _ => n⟩

/-- An encoder supporting everything except WebP, constant size `n`. -/
def noWebpEnc (n : Nat) : CanvasEncoder :=
  ⟨fun t => decide (t ≠ Mime.webp), by decide, fun _ _ => n⟩

/-- An encoder that can only write PNG (the always-raster-default
stub of the capability-fallback scenario), constant size `n`. -/
def pngOnlyEnc (n : Nat) : CanvasEncoder :=
  ⟨fun t => decide (t = Mime.png), by decide, fun _ _ => n⟩

/-- An encoder supporting only WebP and PNG, constant size `n`. -/
def webpPngEnc (n : Nat) : CanvasEncoder :=
  ⟨fun t => decide (t = Mime.webp) || decide (t = Mime.png), by decide, fun _ _ => n⟩

/-- A 100×100 WebP source of 100 bytes. -/
def webpFile : FileModel := ⟨Mime.webp, 100, 100, 100⟩

/-- A 100×100 JPEG source of 1000 bytes. -/
def jpegFile : FileModel := ⟨Mime.jpeg, 1000, 100, 100⟩

/-- A 4000×3000 JPEG source of 10,000,000 bytes (not a mobile photo:
too big in bytes). -/
def bigJpegFile : FileModel := ⟨Mime.jpeg, 10000000, 4000, 3000⟩

/-- A 400×300 PNG source of 8192 bytes. -/
def smallPngFile : FileModel := ⟨Mime.png, 8192, 400, 300⟩

/-- Placeholder Base64 payload text for the SVG wrapper statements. -/
def dataStr : String := "AAAA"

/-! Arithmetic facts about the resize logic. -/

theorem jsRound_bounds (a b : Nat) (hb : 0 < b) :
    b * jsRound a b ≤ a + b ∧ a ≤ b * jsRound a b + b := by
  have hd := Nat.div_add_mod (2 * a + b) (2 * b)
  have hm : (2 * a + b) % (2 * b) < 2 * b := Nat.mod_lt _ (by omega)
  unfold jsRound
  set q := (2 * a + b) / (2 * b) with hq
  set m := (2 * a + b) % (2 * b) with hmd
  have h1 : 2 * (b * q) + m = 2 * a + b := by
    calc 2 * (b * q) + m = 2 * b * q + m := by ring
    _ = 2 * a + b := hd
  set x := b * q with hx
  omega

theorem jsRound_le_of_le (a b M : Nat) (hb : 0 < b) (h : a ≤ b * M) :
    jsRound a b ≤ M := by
  have hd := Nat.div_add_mod (2 * a + b) (2 * b)
  have hm : (2 * a + b) % (2 * b) < 2 * b := Nat.mod_lt _ (by omega)
  unfold jsRound
  set q := (2 * a + b) / (2 * b) with hq
  set m := (2 * a + b) % (2 * b) with hmd
  by_contra hqM
  push_neg at hqM
  have h2 : b * (M + 1) ≤ b * q := Nat.mul_le_mul_left b hqM
  rw [Nat.mul_succ] at h2
  have h1 : 2 * (b * q) + m = 2 * a + b := by
    calc 2 * (b * q) + m = 2 * b * q + m := by ring
    _ = 2 * a + b := hd
  set x := b * q with hx
  set y := b * M with hy
  omega

theorem resizeDims_keep (w h M : Nat) (hw : w ≤ M) (hh : h ≤ M) :
    resizeDims w h M = (w, h) := by
  unfold resizeDims
  rw [if_neg (by omega)]

theorem resizeDims_longer_w (w h M : Nat) (hM : 0 < M) (hwh : h < w)
    (hbig : M < w ∨ M < h) :
    resizeDims w h M = (M, jsRound (h * M) w) := by
  unfold resizeDims
  rw [if_pos ⟨hM, hbig⟩, if_pos hwh]

theorem resizeDims_longer_h (w h M : Nat) (hM : 0 < M) (hwh : w ≤ h)
    (hbig : M < w ∨ M < h) :
    resizeDims w h M = (jsRound (w * M) h, M) := by
  unfold resizeDims
  rw [if_pos ⟨hM, hbig⟩, if_neg (by omega)]

/-- C6.  For every encode invocation with a positive max-dimension cap
and source pixel dimensions `(w, h)`: if both fit within the cap the
output surface keeps the native dimensions; otherwise the longer side
is set to exactly the cap and the shorter side to
`round(shorter * cap / longer)`, so both output sides stay at most the
cap and the aspect ratio is preserved to within rounding (the scaled
shorter side differs from the exact proportional value by at most one
pixel, stated as a cross-multiplied two-sided bound). -/
theorem claim_C6_theorem (E : CanvasEncoder) (f : FileModel) (r : EncodeRequest)
    (hM : 0 < r.maxWidth) :
    ((compressImage E f r).width, (compressImage E f r).height)
        = resizeDims f.width f.height r.maxWidth ∧
    (f.width ≤ r.maxWidth → f.height ≤ r.maxWidth →
        resizeDims f.width f.height r.maxWidth = (f.width, f.height)) ∧
    ((r.maxWidth < f.width ∨ r.maxWidth < f.height) →
      (resizeDims f.width f.height r.maxWidth).1 ≤ r.maxWidth ∧
      (resizeDims f.width f.height r.maxWidth).2 ≤ r.maxWidth ∧
      (f.height < f.width →
        resizeDims f.width f.height r.maxWidth
            = (r.maxWidth, jsRound (f.height * r.maxWidth) f.width) ∧
        f.width * (resizeDims f.width f.height r.maxWidth).2
            ≤ f.height * r.maxWidth + f.width ∧
        f.height * r.maxWidth
            ≤ f.width * (resizeDims f.width f.height r.maxWidth).2 + f.width) ∧
      (f.width ≤ f.height →
        resizeDims f.width f.height r.maxWidth
            = (jsRound (f.width * r.maxWidth) f.height, r.maxWidth) ∧
        f.height * (resizeDims f.width f.height r.maxWidth).1
            ≤ f.width * r.maxWidth + f.height ∧
        f.width * r.maxWidth
            ≤ f.height * (resizeDims f.width f.height r.maxWidth).1 + f.height)) := by
  refine ⟨rfl, fun hw hh => resizeDims_keep _ _ _ hw hh, fun hbig => ?_⟩
  set w := f.width
  set h := f.height
  set M := r.maxWidth
  by_cases hwh : h < w
  · have hw0 : 0 < w := by omega
    have hrz := resizeDims_longer_w w h M hM hwh hbig
    have hle : jsRound (h * M) w ≤ M :=
      jsRound_le_of_le (h * M) w M hw0
        (by calc h * M ≤ w * M := Nat.mul_le_mul_right M (le_of_lt hwh)
            _ = w * M := rfl)
    have hbnd := jsRound_bounds (h * M) w hw0
    rw [hrz]
    refine ⟨le_refl M, hle, fun _ => ⟨rfl, ?_, ?_⟩, fun hcon => absurd hcon (by omega)⟩
    · exact hbnd.1
    · exact hbnd.2
  · push_neg at hwh
    have hh0 : 0 < h := by omega
    have hrz := resizeDims_longer_h w h M hM hwh hbig
    have hle : jsRound (w * M) h ≤ M :=
      jsRound_le_of_le (w * M) h M hh0 (Nat.mul_le_mul_right M hwh)
    have hbnd := jsRound_bounds (w * M) h hh0
    rw [hrz]
    exact ⟨hle, le_refl M, fun hcon => absurd hcon (by omega),
      fun _ => ⟨rfl, hbnd.1, hbnd.2⟩⟩

/-- Witness for C6 at a concrete invocation: a 4000×3000 source capped
at 1920 comes out as 1920×1440. -/
theorem claim_C6_witness :
    ((compressImage (constEnc 500000) bigJpegFile ⟨65, Mime.jpeg, 1920⟩).width,
      (compressImage (constEnc 500000) bigJpegFile ⟨65, Mime.jpeg, 1920⟩).height)
        = (1920, 1440) := by
  rw [(claim_C6_theorem (constEnc 500000) bigJpegFile ⟨65, Mime.jpeg, 1920⟩
    (by decide)).1]
  decide

/-! Structural lemmas about the Version 2.1 optimizer. -/

theorem capFinalBlobB (E : CanvasEncoder) (t : Mime) (f : FileModel) :
    E.cap (B.finalBlob E t f).type = true := by
  unfold B.finalBlob B.bestAfterPass3 B.bestAfterPass2 B.blobAfterTrap B.pass1Blob
  split_ifs <;> exact resolvedType_cap E _

theorem pass1BlobTypeB (E : CanvasEncoder) (t : Mime) (f : FileModel)
    (h : E.cap t = true) : (B.pass1Blob E t f).type = t := by
  simp [B.pass1Blob, compressImage, B.pass1Req, resolvedType_of_cap E h]

theorem blobAfterTrapEqB (E : CanvasEncoder) (t : Mime) (f : FileModel)
    (h : E.cap t = true) : B.blobAfterTrap E t f = B.pass1Blob E t f := by
  unfold B.blobAfterTrap
  rw [if_neg]
  rintro ⟨ht, hpng⟩
  rw [pass1BlobTypeB E t f h] at hpng
  rcases ht with rfl | rfl <;> exact absurd hpng (by decide)

theorem finalBlobTypeB (E : CanvasEncoder) (t : Mime) (f : FileModel)
    (h : E.cap t = true) : (B.finalBlob E t f).type = t := by
  have h1 := pass1BlobTypeB E t f h
  have h2 := blobAfterTrapEqB E t f h
  have hbt : (B.blobAfterTrap E t f).type = t := by rw [h2]; exact h1
  have hb2 : (B.bestAfterPass2 E t f).type = t := by
    unfold B.bestAfterPass2
    split_ifs with hcase
    · simp [compressImage, B.pass2Req, resolvedType_of_cap E h, hbt]
    · exact hbt
  have hb3 : (B.bestAfterPass3 E t f).type = t := by
    unfold B.bestAfterPass3
    split_ifs with hcase
    · simp [compressImage, B.pass3Req, resolvedType_of_cap E h, hbt]
    · exact hb2
  unfold B.finalBlob
  split_ifs <;> first | exact hb3 | exact hb2 | exact hbt

/-- Shared helper: when the platform encoder supports the source's own
format, the Compress adapter of the Version 2.1 revision never returns
more bytes than the source, returns exactly the source's byte count
only by returning the original itself, and returns the original
verbatim whenever no pass beat the original. -/
theorem sameFormatLeB (E : CanvasEncoder) (f : FileModel)
    (h : E.cap f.type = true) :
    outcomeSize f (B.compressSimple E f) ≤ f.size ∧
    (outcomeSize f (B.compressSimple E f) = f.size →
        B.compressSimple E f = Outcome.original) ∧
    (f.size ≤ (B.finalBlob E f.type f).size →
        B.compressSimple E f = Outcome.original) := by
  have ht := finalBlobTypeB E f.type f h
  unfold B.compressSimple B.smartOptimizedCompress
  by_cases hc : f.size ≤ (B.finalBlob E f.type f).size
  · rw [if_pos ⟨ht.symm, hc⟩]
    exact ⟨le_refl _, fun _ => rfl, fun _ => rfl⟩
  · rw [if_neg (fun hand => hc hand.2)]
    push_neg at hc
    refine ⟨le_of_lt hc, fun he => ?_, fun hge => absurd hge (by omega)⟩
    exact absurd he (by simp only [outcomeSize]; omega)

/-- C1 counterexample.  A Compress call (`targetFormat = source type`)
on a 100-byte WebP source, on a platform whose encoder cannot write
WebP: the PNG trap re-encodes as JPEG, the final same-format guard
compares against the JPEG type and does not fire, and the returned
500-byte JPEG is strictly larger than the source — the never-larger
invariant fails. -/
theorem claim_C1_counterexample :
    (noWebpEnc 500).cap webpFile.type = false ∧
    outcomeType webpFile (B.compressSimple (noWebpEnc 500) webpFile) = Mime.jpeg ∧
    webpFile.size < outcomeSize webpFile (B.compressSimple (noWebpEnc 500) webpFile) := by
  decide

/-- C1 (amended).  When the platform encoder supports the source's MIME
type (no capability fallback), every Compress call returns at most the
source's byte length, with equality only when the original payload
itself is returned; and if every pass fails to beat the original the
original file is returned verbatim. -/
theorem claim_C1_theorem (E : CanvasEncoder) (f : FileModel)
    (h : E.cap f.type = true) :
    outcomeSize f (B.compressSimple E f) ≤ f.size ∧
    (outcomeSize f (B.compressSimple E f) = f.size →
        B.compressSimple E f = Outcome.original) ∧
    (f.size ≤ (B.finalBlob E f.type f).size →
        B.compressSimple E f = Outcome.original) :=
  sameFormatLeB E f h

/-- Witness for C1: a 1000-byte JPEG whose every re-encode comes out at
1500 bytes is returned unmodified. -/
theorem claim_C1_witness :
    outcomeSize jpegFile (B.compressSimple (constEnc 1500) jpegFile) ≤ jpegFile.size ∧
    B.compressSimple (constEnc 1500) jpegFile = Outcome.original := by
  have h := claim_C1_theorem (constEnc 1500) jpegFile (by decide)
  exact ⟨h.1, h.2.2 (by decide)⟩

/-- C7 counterexample.  The same fallback scenario as for C1: Compress
on a WebP source with a WebP-incapable encoder returns a JPEG blob, so
Compress is not format-preserving. -/
theorem claim_C7_counterexample :
    webpFile.type = Mime.webp ∧
    outcomeType webpFile (B.compressSimple (noWebpEnc 500) webpFile)
      ≠ webpFile.type := by
  decide

/-- C7 (amended).  `compressSimple` runs the Smart Optimizer with
`targetFormat = file.type`, and when the platform encoder supports that
format the returned value's MIME type equals the source's. -/
theorem claim_C7_theorem (E : CanvasEncoder) (f : FileModel)
    (h : E.cap f.type = true) :
    B.compressSimple E f = B.smartOptimizedCompress E f.type f ∧
    outcomeType f (B.compressSimple E f) = f.type := by
  refine ⟨rfl, ?_⟩
  have ht := finalBlobTypeB E f.type f h
  unfold B.compressSimple B.smartOptimizedCompress
  split_ifs with hc
  · rfl
  · exact ht

/-- Witness for C7: Compress on a JPEG with a JPEG-capable encoder
yields a JPEG-typed result. -/
theorem claim_C7_witness :
    outcomeType jpegFile (B.compressSimple (constEnc 1500) jpegFile)
      = jpegFile.type :=
  (claim_C7_theorem (constEnc 1500) jpegFile (by decide)).2

/-- C8.  Running Compress a second time on the output of a first
Compress run never returns more bytes than the first run's output.
This holds for every canvas encoder (deterministic, uniform
capabilities, PNG always writable) because the first run's output
always carries a MIME type the encoder can produce — either it is an
encoder-produced blob, or it is the original file, which is returned
only when its type matched an encoder-produced type — so the second
run's same-format guard applies. -/
theorem claim_C8_theorem (E : CanvasEncoder) (f : FileModel) :
    outcomeSize (outcomeFile f (B.compressSimple E f))
        (B.compressSimple E (outcomeFile f (B.compressSimple E f)))
      ≤ outcomeSize f (B.compressSimple E f) := by
  have hcap : E.cap (outcomeFile f (B.compressSimple E f)).type = true := by
    cases ho : B.compressSimple E f with
    | original =>
        have hguard : f.type = (B.finalBlob E f.type f).type := by
          unfold B.compressSimple B.smartOptimizedCompress at ho
          split_ifs at ho with hc
          exact hc.1
        simp only [outcomeFile]
        rw [hguard]
        exact capFinalBlobB E f.type f
    | encoded b =>
        have hb : b = B.finalBlob E f.type f := by
          unfold B.compressSimple B.smartOptimizedCompress at ho
          split_ifs at ho with hc
          exact ((Outcome.encoded.injEq _ _).mp ho).symm
        simp only [outcomeFile]
        rw [hb]
        exact capFinalBlobB E f.type f
  have hle := (sameFormatLeB E (outcomeFile f (B.compressSimple E f)) hcap).1
  have hsz : (outcomeFile f (B.compressSimple E f)).size
      = outcomeSize f (B.compressSimple E f) := by
    cases B.compressSimple E f <;> rfl
  rw [hsz] at hle
  exact hle

/-- C5.  Escalation monotonicity in the part_000 optimizer: the best
result held after the Pass-2 block is at most the Pass-1 result's size,
the best after Pass 3 is at most the best after Pass 2, a later pass's
candidate replaces the current best only when strictly smaller, and the
blob reaching the final decision is never larger than the Pass-1
result. -/
theorem claim_C5_theorem (E : CanvasEncoder) (t : Mime) (f : FileModel) :
    (P0.bestAfterPass2 E t f).size ≤ (P0.pass1Blob E t f).size ∧
    (P0.bestAfterPass3 E t f).size ≤ (P0.bestAfterPass2 E t f).size ∧
    (P0.bestAfterPass2 E t f = P0.pass1Blob E t f ∨
      (P0.bestAfterPass2 E t f).size < (P0.pass1Blob E t f).size) ∧
    (P0.bestAfterPass3 E t f = P0.bestAfterPass2 E t f ∨
      (P0.bestAfterPass3 E t f).size < (P0.bestAfterPass2 E t f).size) ∧
    (P0.finalBlob E t f).size ≤ (P0.pass1Blob E t f).size := by
  have h2 : (P0.bestAfterPass2 E t f).size ≤ (P0.pass1Blob E t f).size := by
    unfold P0.bestAfterPass2
    split_ifs with hc
    · exact le_of_lt hc
    · exact le_refl _
  have h3 : (P0.bestAfterPass3 E t f).size ≤ (P0.bestAfterPass2 E t f).size := by
    unfold P0.bestAfterPass3
    split_ifs with hc
    · exact le_of_lt hc
    · exact le_refl _
  have h2e : P0.bestAfterPass2 E t f = P0.pass1Blob E t f ∨
      (P0.bestAfterPass2 E t f).size < (P0.pass1Blob E t f).size := by
    unfold P0.bestAfterPass2
    split_ifs with hc
    · exact Or.inr hc
    · exact Or.inl rfl
  have h3e : P0.bestAfterPass3 E t f = P0.bestAfterPass2 E t f ∨
      (P0.bestAfterPass3 E t f).size < (P0.bestAfterPass2 E t f).size := by
    unfold P0.bestAfterPass3
    split_ifs with hc
    · exact Or.inr hc
    · exact Or.inl rfl
  have h5 : (P0.finalBlob E t f).size ≤ (P0.pass1Blob E t f).size := by
    unfold P0.finalBlob
    split_ifs with ha hb
    · exact le_trans h3 h2
    · exact h2
    · exact le_refl _
  exact ⟨h2, h3, h2e, h3e, h5⟩

/-! Structural lemmas about the part_000 optimizer. -/

theorem finalBlobTypeP0 (E : CanvasEncoder) (t : Mime) (f : FileModel)
    (h : E.cap t = true) : (P0.finalBlob E t f).type = t := by
  have h1 : (P0.pass1Blob E t f).type = t := by
    simp [P0.pass1Blob, compressImage, P0.pass1Req, resolvedType_of_cap E h]
  have h2 : (P0.bestAfterPass2 E t f).type = t := by
    unfold P0.bestAfterPass2
    split_ifs
    · simp [compressImage, P0.pass2Req, resolvedType_of_cap E h]
    · exact h1
  have h3 : (P0.bestAfterPass3 E t f).type = t := by
    unfold P0.bestAfterPass3
    split_ifs
    · simp [compressImage, P0.pass3Req, resolvedType_of_cap E h]
    · exact h2
  unfold P0.finalBlob
  split_ifs <;> first | exact h3 | exact h2 | exact h1

theorem outcomeTypeSmartP0 (E : CanvasEncoder) (t : Mime) (f : FileModel)
    (h : E.cap t = true) :
    outcomeType f (P0.smartOptimizedCompress E t f) = t := by
  unfold P0.smartOptimizedCompress
  split_ifs with hc
  · exact hc.1
  · exact finalBlobTypeP0 E t f h

/-- C2 counterexample.  With a platform encoder that can only write PNG
(it cannot produce AVIF — nor WebP), the part_000 `convertToAVIF` does
retry as Convert-to-WebP, but the retry also falls back to PNG and the
returned blob has the raster-default type `image/png`, contradicting
"the blob returned by convertToAVIF never has the raster-default type
image/png". -/
theorem claim_C2_counterexample :
    (pngOnlyEnc 500).cap Mime.avif = false ∧
    outcomeType jpegFile (P0.convertToAVIF (pngOnlyEnc 500) jpegFile)
      = Mime.png := by
  decide

/-- C2 (amended).  When the AVIF attempt comes back PNG-typed the call
is retried end-to-end as Convert-to-WebP; and provided the platform
encoder can write WebP, the blob returned by `convertToAVIF` never has
the raster-default type `image/png`. -/
theorem claim_C2_theorem (E : CanvasEncoder) (f : FileModel)
    (h : E.cap Mime.webp = true) :
    (outcomeType f (P0.smartOptimizedCompress E Mime.avif f) = Mime.png →
        P0.convertToAVIF E f = P0.convertToWebP E f) ∧
    outcomeType f (P0.convertToAVIF E f) ≠ Mime.png := by
  constructor
  · intro hp
    unfold P0.convertToAVIF
    rw [if_pos hp]
  · unfold P0.convertToAVIF
    split_ifs with hp
    · unfold P0.convertToWebP
      rw [outcomeTypeSmartP0 E Mime.webp f h]
      decide
    · exact hp

/-- Witness for C2: an encoder that can write WebP and PNG but not
AVIF; converting a JPEG to AVIF yields a non-PNG (WebP) result. -/
theorem claim_C2_witness :
    outcomeType jpegFile (P0.convertToAVIF (webpPngEnc 500) jpegFile)
      ≠ Mime.png :=
  (claim_C2_theorem (webpPngEnc 500) jpegFile (by decide)).2

/-! Structural lemmas about the final revision's optimizer. -/

theorem startWidthCasesVC (f : FileModel) :
    VC.startWidth f = 1280 ∨ VC.startWidth f = 1920 := by
  unfold VC.startWidth
  split_ifs
  · exact Or.inl rfl
  · exact Or.inr rfl

/-- C3 counterexample.  In the Version 2.1 revision (also cited by the
claim) the JPEG fallback of the PNG trap is issued at `maxWidth: 1024`,
not at the same max dimension Pass 1 used: converting a small JPEG to
WebP on a WebP-incapable platform, Pass 1 runs at 1920 while the
fallback re-encode runs at 1024. -/
theorem claim_C3_counterexample :
    B.trapFires Mime.webp (B.pass1Blob (noWebpEnc 500) Mime.webp jpegFile) ∧
    B.blobAfterTrap (noWebpEnc 500) Mime.webp jpegFile
      = compressImage (noWebpEnc 500) jpegFile B.trapReq ∧
    (B.pass1Req Mime.webp jpegFile).maxWidth = 1920 ∧
    B.trapReq.maxWidth = 1024 ∧
    B.trapReq.maxWidth ≠ (B.pass1Req Mime.webp jpegFile).maxWidth := by
  decide

/-- C3 (amended).  In the final revision: whenever the requested target
is WebP or AVIF and Pass 1 resolves to the raster default PNG, the
optimizer re-encodes exactly once as JPEG at quality 0.7 with the same
max dimension Pass 1 used, treats that result as the Pass-1 result, and
never requests WebP or AVIF again in the remaining passes.  (In the
Version 2.1 revision the fallback instead uses `maxWidth: 1024`.) -/
theorem claim_C3_theorem (E : CanvasEncoder) (t : Mime) (f : FileModel)
    (h : VC.trapFires t (VC.pass1Blob E t f)) :
    VC.blobAfterTrap E t f = compressImage E f (VC.trapReq f) ∧
    VC.trapReq f = ⟨70, Mime.jpeg, VC.startWidth f⟩ ∧
    (VC.trapReq f).maxWidth = (VC.pass1Req t f).maxWidth ∧
    ∃ rest, VC.requests E t f = VC.pass1Req t f :: VC.trapReq f :: rest ∧
      VC.trapReq f ∉ rest ∧ VC.trapReq f ≠ VC.pass1Req t f ∧
      ∀ r ∈ rest, r.type ≠ Mime.webp ∧ r.type ≠ Mime.avif := by
  have hb : VC.blobAfterTrap E t f = compressImage E f (VC.trapReq f) := by
    unfold VC.blobAfterTrap
    rw [if_pos h]
  have hty : (VC.blobAfterTrap E t f).type = resolvedType E Mime.jpeg := by
    rw [hb]; rfl
  have htyp : (VC.blobAfterTrap E t f).type ≠ Mime.webp ∧
      (VC.blobAfterTrap E t f).type ≠ Mime.avif := by
    rw [hty]
    unfold resolvedType
    split_ifs <;> exact ⟨by decide, by decide⟩
  have hsw := startWidthCasesVC f
  refine ⟨hb, rfl, rfl, ?_⟩
  refine ⟨(if f.size ≤ (VC.blobAfterTrap E t f).size then
      VC.pass2Req (VC.blobAfterTrap E t f) ::
        (if VC.pass3Cond f (VC.bestAfterPass2 E t f) then
          [VC.pass3Req (VC.blobAfterTrap E t f).type]
        else [])
    else []), ?_, ?_, ?_, ?_⟩
  · unfold VC.requests
    rw [if_pos h]
    rfl
  · intro hmem
    split_ifs at hmem with h1 h2 <;>
      simp only [List.mem_cons, List.mem_singleton, List.not_mem_nil] at hmem
    · rcases hmem with he | he | he
      · have := congrArg EncodeRequest.maxWidth he
        simp [VC.trapReq, VC.pass2Req] at this
        rcases hsw with hw | hw <;> rw [hw] at this <;> omega
      · have := congrArg EncodeRequest.maxWidth he
        simp [VC.trapReq, VC.pass3Req] at this
        rcases hsw with hw | hw <;> rw [hw] at this <;> omega
      · exact he
    · rcases hmem with he | he
      · have := congrArg EncodeRequest.maxWidth he
        simp [VC.trapReq, VC.pass2Req] at this
        rcases hsw with hw | hw <;> rw [hw] at this <;> omega
      · exact he
  · intro he
    have := congrArg EncodeRequest.type he
    simp [VC.trapReq, VC.pass1Req] at this
    obtain ⟨ht, _⟩ := h
    rcases ht with rfl | rfl <;> exact absurd this (by decide)
  · intro r hr
    split_ifs at hr with h1 h2 <;>
      simp only [List.mem_cons, List.mem_singleton, List.not_mem_nil] at hr
    · rcases hr with rfl | rfl | hf
      · exact ⟨by simp [VC.pass2Req, htyp.1], by simp [VC.pass2Req, htyp.2]⟩
      · exact ⟨by simp [VC.pass3Req, htyp.1], by simp [VC.pass3Req, htyp.2]⟩
      · exact absurd hf (by simp)
    · rcases hr with rfl | hf
      · exact ⟨by simp [VC.pass2Req, htyp.1], by simp [VC.pass2Req, htyp.2]⟩
      · exact absurd hf (by simp)

/-- Witness for C3: converting a JPEG to WebP on a WebP-incapable
platform, the final revision's fallback request uses the same max
dimension as Pass 1. -/
theorem claim_C3_witness :
    VC.blobAfterTrap (noWebpEnc 500) Mime.webp jpegFile
        = compressImage (noWebpEnc 500) jpegFile (VC.trapReq jpegFile) ∧
    (VC.trapReq jpegFile).maxWidth = (VC.pass1Req Mime.webp jpegFile).maxWidth := by
  have h := claim_C3_theorem (noWebpEnc 500) Mime.webp jpegFile (by decide)
  exact ⟨h.1, h.2.2.1⟩

/-- C4 counterexample.  In the final revision, a same-format (Compress)
call whose Pass-1 result is 950 bytes against a 1000-byte source — over
0.9 of the source but below it — issues no further encode request: the
optimizer goes straight to Finalize, contradicting the claimed
"proceeds to Pass 2" for same-format requests saving less than 10%. -/
theorem claim_C4_counterexample :
    jpegFile.type = Mime.jpeg ∧
    9 * jpegFile.size
        < 10 * (VC.blobAfterTrap (constEnc 950) Mime.jpeg jpegFile).size ∧
    (VC.blobAfterTrap (constEnc 950) Mime.jpeg jpegFile).size < jpegFile.size ∧
    VC.requests (constEnc 950) Mime.jpeg jpegFile
      = [VC.pass1Req Mime.jpeg jpegFile] := by
  decide

/-- C4 (amended).  In the final revision the optimizer proceeds from
Pass 1 to Pass 2 if and only if the Pass-1 result's byte length is
greater than or equal to the source's byte length (for every request,
format-preserving or not); otherwise it transitions directly to
Finalize without further encoding.  (The 10%-saved rule exists only as
this revision's Pass-3 entry condition; the Version 2.1 revision
instead enters Pass 2 on an absolute 150KB threshold.) -/
theorem claim_C4_theorem (E : CanvasEncoder) (t : Mime) (f : FileModel) :
    (f.size ≤ (VC.blobAfterTrap E t f).size ↔
        VC.pass2Req (VC.blobAfterTrap E t f) ∈ VC.requests E t f) ∧
    ((VC.blobAfterTrap E t f).size < f.size →
        VC.finalBlob E t f = VC.blobAfterTrap E t f ∧
        VC.requests E t f = VC.pass1Req t f ::
          (if VC.trapFires t (VC.pass1Blob E t f) then [VC.trapReq f] else [])) := by
  have hsw := startWidthCasesVC f
  have hne1 : VC.pass2Req (VC.blobAfterTrap E t f) ≠ VC.pass1Req t f := by
    intro he
    have := congrArg EncodeRequest.maxWidth he
    simp [VC.pass2Req, VC.pass1Req] at this
    rcases hsw with hw | hw <;> rw [hw] at this <;> omega
  have hne2 : VC.pass2Req (VC.blobAfterTrap E t f) ≠ VC.trapReq f := by
    intro he
    have := congrArg EncodeRequest.maxWidth he
    simp [VC.pass2Req, VC.trapReq] at this
    rcases hsw with hw | hw <;> rw [hw] at this <;> omega
  constructor
  · constructor
    · intro hc
      unfold VC.requests
      rw [if_pos hc]
      simp
    · intro hmem
      by_contra hc
      unfold VC.requests at hmem
      rw [if_neg hc] at hmem
      split_ifs at hmem <;>
        simp only [List.append_nil, List.mem_cons, List.mem_singleton,
          List.not_mem_nil, or_false] at hmem
      · rcases hmem with he | he
        · exact hne1 he
        · exact hne2 he
      · exact hne1 hmem
  · intro hlt
    have hc : ¬ f.size ≤ (VC.blobAfterTrap E t f).size := by omega
    constructor
    · unfold VC.finalBlob
      rw [if_neg hc]
    · unfold VC.requests
      rw [if_neg hc]
      simp

/-- Witness for C4: at the counterexample input (Pass-1 result smaller
than the source) the amended theorem yields the no-further-encoding
trace. -/
theorem claim_C4_witness :
    VC.finalBlob (constEnc 950) Mime.jpeg jpegFile
        = VC.blobAfterTrap (constEnc 950) Mime.jpeg jpegFile ∧
    VC.requests (constEnc 950) Mime.jpeg jpegFile
      = VC.pass1Req Mime.jpeg jpegFile ::
          (if VC.trapFires Mime.jpeg (VC.pass1Blob (constEnc 950) Mime.jpeg jpegFile)
            then [VC.trapReq jpegFile] else []) :=
  (claim_C4_theorem (constEnc 950) Mime.jpeg jpegFile).2 (by decide)

/-! Dimension preservation through the Version 2.1 optimizer. -/

theorem compressDimsEq (E : CanvasEncoder) (f : FileModel) (r : EncodeRequest)
    (hw : f.width ≤ r.maxWidth) (hh : f.height ≤ r.maxWidth) :
    (compressImage E f r).width = f.width ∧
    (compressImage E f r).height = f.height := by
  have hk := resizeDims_keep f.width f.height r.maxWidth hw hh
  constructor <;> simp [compressImage, hk]

theorem finalBlobDimsB (E : CanvasEncoder) (t : Mime) (f : FileModel)
    (hsmall : max f.width f.height ≤ 800) :
    (B.finalBlob E t f).width = f.width ∧
    (B.finalBlob E t f).height = f.height := by
  have hw : f.width ≤ 800 := le_trans (le_max_left _ _) hsmall
  have hh : f.height ≤ 800 := le_trans (le_max_right _ _) hsmall
  have hsw : 800 ≤ B.startWidth f := by
    unfold B.startWidth
    split_ifs <;> omega
  have hp1 : (B.pass1Blob E t f).width = f.width ∧
      (B.pass1Blob E t f).height = f.height :=
    compressDimsEq E f (B.pass1Req t f) (le_trans hw hsw) (le_trans hh hsw)
  have hbt : (B.blobAfterTrap E t f).width = f.width ∧
      (B.blobAfterTrap E t f).height = f.height := by
    unfold B.blobAfterTrap
    split_ifs
    · exact compressDimsEq E f B.trapReq (show f.width ≤ 1024 by omega)
        (show f.height ≤ 1024 by omega)
    · exact hp1
  have hb2 : (B.bestAfterPass2 E t f).width = f.width ∧
      (B.bestAfterPass2 E t f).height = f.height := by
    unfold B.bestAfterPass2
    split_ifs
    · exact compressDimsEq E f (B.pass2Req (B.blobAfterTrap E t f))
        (by simp [B.pass2Req]; omega) (by simp [B.pass2Req]; omega)
    · exact hbt
  have hb3 : (B.bestAfterPass3 E t f).width = f.width ∧
      (B.bestAfterPass3 E t f).height = f.height := by
    unfold B.bestAfterPass3
    split_ifs
    · exact compressDimsEq E f
        (B.pass3Req (B.blobAfterTrap E t f).type (B.bestAfterPass2 E t f))
        (by simp [B.pass3Req]; omega) (by simp [B.pass3Req]; omega)
    · exact hb2
  unfold B.finalBlob
  split_ifs <;> first | exact hb3 | exact hb2 | exact hbt

/-- C9 counterexample.  SVG-wrapping a 4000×3000 JPEG (10MB, encoder
produces 500KB at every pass): the optimizer keeps the Pass-1 blob,
downscaled to 1920×1440, and the generated markup declares width 1920
and height 1440 — not the source's native 4000×3000. -/
theorem claim_C9_counterexample :
    bigJpegFile.type ≠ Mime.svg ∧
    (bigJpegFile.width, bigJpegFile.height) = (4000, 3000) ∧
    generateSVGWrapper (constEnc 500000) bigJpegFile dataStr
      = SVGResult.generated (svgTemplate 1920 1440 dataStr) ∧
    (1920, 1440) ≠ (bigJpegFile.width, bigJpegFile.height) := by
  refine ⟨by decide, by decide, ?_, by decide⟩
  rfl

/-- C9 (amended).  For every non-SVG input the generated markup has the
template form with W, H equal to the pixel dimensions of the payload
the optimizer actually embedded — the native dimensions when the
original file is returned, and in particular the native dimensions
whenever no pass downscales (e.g. both sides at most 800). -/
theorem claim_C9_theorem (E : CanvasEncoder) (f : FileModel) (data : String)
    (h : f.type ≠ Mime.svg) :
    generateSVGWrapper E f data = SVGResult.generated
        (svgTemplate (embeddedDims f (B.smartOptimizedCompress E f.type f)).1
          (embeddedDims f (B.smartOptimizedCompress E f.type f)).2 data) ∧
    (B.smartOptimizedCompress E f.type f = Outcome.original →
        embeddedDims f (B.smartOptimizedCompress E f.type f)
          = (f.width, f.height)) ∧
    (max f.width f.height ≤ 800 →
        embeddedDims f (B.smartOptimizedCompress E f.type f)
          = (f.width, f.height)) := by
  refine ⟨?_, ?_, ?_⟩
  · unfold generateSVGWrapper
    rw [if_neg h]
  · intro ho
    rw [ho]
    rfl
  · intro hsmall
    have hd := finalBlobDimsB E f.type f hsmall
    unfold B.smartOptimizedCompress
    split_ifs
    · rfl
    · simp [embeddedDims, hd.1, hd.2]

/-- Witness for C9: SVG-wrapping a 400×300 PNG embeds a payload whose
declared dimensions are exactly the native 400×300. -/
theorem claim_C9_witness :
    embeddedDims smallPngFile
        (B.smartOptimizedCompress (constEnc 100) smallPngFile.type smallPngFile)
      = (400, 300) := by
  have h := claim_C9_theorem (constEnc 100) smallPngFile dataStr (by decide)
  exact h.2.2 (by decide)

/-- C10.  For every byte count `b` with `1 ≤ b < 1024^4` the computed
unit index `⌊log b / log 1024⌋` stays within the 4-element `sizes`
array and `formatBytes` returns a number followed by one of the four
unit names; `formatBytes 0` is exactly `0 Bytes`; and for
`b ≥ 1024^4` the index leaves the array and the appended unit is the
out-of-range text `undefined`, not one of the four names. -/
theorem claim_C10_theorem (b : Nat) :
    (1 ≤ b → b < 1024 ^ 4 →
        formatBytesIndex b < 4 ∧ formatBytesUnit b ∈ sizesArr ∧
        formatBytes b = toString (formatBytesNum b) ++ " " ++ formatBytesUnit b) ∧
    formatBytes 0 = "0 Bytes" ∧
    (1024 ^ 4 ≤ b →
        4 ≤ formatBytesIndex b ∧ formatBytesUnit b ∉ sizesArr ∧
        formatBytesUnit b = undefinedStr) := by
  refine ⟨fun h1 h2 => ?_, rfl, fun h4 => ?_⟩
  · have hlt : Nat.log 1024 b < 4 :=
      (Nat.lt_pow_iff_log_lt (by norm_num) (by omega)).mp h2
    refine ⟨hlt, ?_, ?_⟩
    · have hcases : Nat.log 1024 b = 0 ∨ Nat.log 1024 b = 1 ∨
          Nat.log 1024 b = 2 ∨ Nat.log 1024 b = 3 := by omega
      rcases hcases with h | h | h | h <;>
        simp [formatBytesUnit, formatBytesIndex, h, sizesArr, undefinedStr]
    · unfold formatBytes
      rw [if_neg (by omega)]
  · have hb0 : b ≠ 0 := by
      have hp : 0 < 1024 ^ 4 := by positivity
      omega
    have hge : 4 ≤ Nat.log 1024 b :=
      (Nat.pow_le_iff_le_log (by norm_num) hb0).mp h4
    have hnone : sizesArr.get? (formatBytesIndex b) = none := by
      apply List.get?_eq_none.mpr
      simpa [sizesArr, formatBytesIndex] using hge
    refine ⟨hge, ?_, ?_⟩
    · unfold formatBytesUnit
      rw [hnone]
      decide
    · unfold formatBytesUnit
      rw [hnone]
      rfl

/-- Witness for C10 at concrete inputs: 5 bytes falls in range (unit is
one of the four names), `1024^4` bytes falls out of range. -/
theorem claim_C10_witness :
    formatBytesUnit 5 ∈ sizesArr ∧ formatBytesUnit (1024 ^ 4) ∉ sizesArr :=
  ⟨((claim_C10_theorem 5).1 (by norm_num) (by norm_num)).2.1,
    ((claim_C10_theorem (1024 ^ 4)).2.2 (le_refl _)).2.1⟩
